import Mathlib

/-!
Shallow embedding of the cap-stream-utils repository: a destination
resolver (src/utils.ts, getDestinationInformation / loadRemoteDestination),
a stream accumulator (processHttpPassthrough), a media envelope builder
(formatMediaResult), and the streaming entry points
(streamMediaFromRemote, streamMediaToRemoteService,
streamMediaFromRemoteThroughPipe).

External collaborators (the cds configuration object, the BTP destination
directory, the HTTP transport) are passed in as function parameters; an
external failure is an opaque error of type Unit.  Machine strings stay
Lean Strings; byte buffers are lists of Nat; a Node byte stream is its
chunk partition (a list of chunks) plus a flag saying whether the stream
ends with an error event instead of an end event.
-/

/-! ### String constants, copied from the source -/

def ERR_NO_CONFIG : String := "Failed to find requested external service in config"

def ERR_INVALID_LOCAL_AUTH : String := "Unsupported local authentication style"

def ERR_NO_VALID_URL : String := "Invalid URL provided in service config"

def BASIC_AUTH : String := "BasicAuthentication"

def STREAM_HTTP_SEND_METHOD : String := "PUT"

def STREAM_HTTP_FETCH_METHOD : String := "GET"

def CONTENT_DISPOSITION : String := "Content-Disposition"

def OUTBOUND_CONTENT_TYPE : String := "Content-Type"

def INBOUND_CONTENT_TYPE : String := "content-type"

def ERR_FETCH_FAILED : String := "Failed to handle proxy stream to remote service"

def ERR_SEND_FAILED : String := "Failed to stream data to remote service"

def ERR_STREAM_REJECTED : String := "External service rejected the incoming stream"

def ERR_DESTINATION_RETRIEVAL : String := "Failed to find destination information to send request"

def STREAM_RESPONSE_TYPE : String := "stream"

/-! ### Data model (src/types.ts) -/

/-- Credentials block of an `ExternalServiceConfig`; every field is
optional in the TypeScript type, so each is an `Option` here. -/
structure Credentials where
  url : Option String
  authentication : Option String
  username : Option String
  password : Option String
  forwardAuthToken : Option Bool
  destination : Option String
  deriving DecidableEq, Repr

/-- Service binding object for the CDS "requires" section. -/
structure ExternalServiceConfig where
  kind : String
  model : Option String
  credentials : Option Credentials
  deriving DecidableEq, Repr

/-- Opaque connection descriptor returned by the external destination
directory (the SAP Cloud SDK HttpDestination); its internal shape is
never inspected by this repository. -/
structure HttpDestination where
  url : String
  deriving DecidableEq, Repr

/-- Result of destination resolution (HttpDestinationOrFetchOptions):
either the value handed back by the remote directory (possibly null,
hence `Option`), or the inline basic-auth options literal built in
getDestinationInformation. -/
inductive DestinationInfo where
  | remote (d : Option HttpDestination)
  | inlineInfo (url : String) (authentication : String)
      (username : Option String) (password : Option String)
  deriving DecidableEq, Repr

/-- Error raised by a function of this repository.  `jsError msg` stands
for a thrown `new Error(msg)`; `externalFailure` is an opaque rejection
propagated unchanged from an external collaborator; `undefinedReject` is
the argument-less `reject()` of processHttpPassthrough. -/
inductive JsError where
  | jsError (msg : String)
  | externalFailure
  | undefinedReject
  deriving DecidableEq, Repr

/-- HTTP response produced by the transport: a status code, a header map,
and a body byte stream given by its chunk partition plus an error flag. -/
structure HttpResponse where
  status : Int
  headers : List (String × String)
  data : List (List Nat)
  dataErrored : Bool
  deriving DecidableEq, Repr

/-- Request configuration handed to the transport (HttpRequestConfig). -/
structure RequestConfig where
  method : String
  url : String
  data : Option (List Nat)
  contentTypeHeader : Option String
  responseType : Option String
  deriving DecidableEq, Repr

/-- JavaScript truthiness of an optional string: undefined and the empty
string are falsy. -/
def truthyStr : Option String → Bool
  | none => false
  | some s => !(s == "")

/-- Lookup of a key in a header map, `headers[k]` in the source; `none`
models an undefined entry. -/
def headerLookup (hs : List (String × String)) (k : String) : Option String :=
  (hs.find? (fun p => p.1 == k)).map (fun p => p.2)

/-! ### Destination resolver (src/utils.ts) -/

/-- Embedding of loadRemoteDestination: awaits the directory lookup
(`getDestination`) and returns its result cast to HttpDestination, with
no validation of the value. -/
def loadRemoteDestination (gd : String → Except Unit (Option HttpDestination))
    (destination : String) : Except Unit (Option HttpDestination) :=
  gd destination

/-- Embedding of getDestinationInformation: reads the service entry from
the configuration map (cds.env.requires); throws ERR_NO_CONFIG when the
entry is absent; when credentials.destination is truthy delegates to
loadRemoteDestination, propagating a directory failure unchanged; else
throws ERR_INVALID_LOCAL_AUTH unless authentication is BASIC_AUTH, then
ERR_NO_VALID_URL unless the url is truthy, and finally returns the
inline options literal. -/
def getDestinationInformation
    (requires : String → Option ExternalServiceConfig)
    (gd : String → Except Unit (Option HttpDestination))
    (externalService : String) : Except JsError DestinationInfo :=
  match requires externalService with
  | none => .error (.jsError ERR_NO_CONFIG)
  | some extCfg =>
    let credDestination := extCfg.credentials.bind (fun c => c.destination)
    if truthyStr credDestination then
      match loadRemoteDestination gd (credDestination.getD "") with
      | .error _ => .error .externalFailure
      | .ok d => .ok (.remote d)
    else if !(extCfg.credentials.bind (fun c => c.authentication) == some BASIC_AUTH) then
      .error (.jsError ERR_INVALID_LOCAL_AUTH)
    else if !truthyStr (extCfg.credentials.bind (fun c => c.url)) then
      .error (.jsError ERR_NO_VALID_URL)
    else
      .ok (.inlineInfo ((extCfg.credentials.bind (fun c => c.url)).getD "")
        BASIC_AUTH
        (extCfg.credentials.bind (fun c => c.username))
        (extCfg.credentials.bind (fun c => c.password)))

/-! ### Stream accumulator (processHttpPassthrough, src/utils.ts) -/

/-- Event emitted by a Node readable stream: a data chunk, the end event,
or an error event. -/
inductive StreamEvent where
  | chunk (c : List Nat)
  | ended
  | errored
  deriving DecidableEq, Repr

/-- Event sequence a stream with the given remaining chunk partition
emits when piped: every chunk in order, then end or error. -/
def streamEvents (chunks : List (List Nat)) (errs : Bool) : List StreamEvent :=
  chunks.map StreamEvent.chunk ++ [if errs then .errored else .ended]

/-- Consumption state of a one-shot Node readable: the chunks not yet
emitted, and whether the stream terminates with an error event. -/
structure ReadableState where
  remaining : List (List Nat)
  errs : Bool
  deriving DecidableEq, Repr

/-- Piping a readable delivers all remaining events and leaves the
source exhausted: a second pipe of the same stream emits no data. -/
def pipeOut (s : ReadableState) : ReadableState × List StreamEvent :=
  (⟨[], s.errs⟩, streamEvents s.remaining s.errs)

/-- State of the promise inside processHttpPassthrough: still
accumulating chunks, resolved with the concatenated buffer, or rejected. -/
inductive DrainState where
  | pending (chunks : List (List Nat))
  | resolved (buf : List Nat)
  | rejected
  deriving DecidableEq, Repr

/-- One event-handler step of processHttpPassthrough: the data handler
appends the chunk, the end handler resolves with Buffer.concat(chunks),
the error handler rejects; a settled promise ignores further events. -/
def drainStep : DrainState → StreamEvent → DrainState
  | .pending cs, .chunk c => .pending (cs ++ [c])
  | .pending cs, .ended => .resolved cs.flatten
  | .pending _, .errored => .rejected
  | s, _ => s

/-- Outcome of running the processHttpPassthrough handlers over a full
event sequence; an error event gives the argument-less `reject()`,
modelled as `Except.error ()`. -/
def drainEvents (evs : List StreamEvent) : Except Unit (List Nat) :=
  match evs.foldl drainStep (.pending []) with
  | .resolved buf => .ok buf
  | _ => .error ()

/-- Embedding of processHttpPassthrough on an explicit stream state:
pipes the response stream through the PassThrough relay (consuming it)
and returns the exhausted stream together with the settled promise. -/
def processHttpPassthroughSt (s : ReadableState) :
    ReadableState × Except Unit (List Nat) :=
  let out := pipeOut s
  (out.1, drainEvents out.2)

/-- Embedding of processHttpPassthrough on a fresh response: the settled
promise value. -/
def processHttpPassthrough (r : HttpResponse) : Except Unit (List Nat) :=
  (processHttpPassthroughSt ⟨r.data, r.dataErrored⟩).2

/-! ### Media envelope (formatMediaResult, src/utils.ts) -/

/-- State of a Node Readable built by hand: the chunks pushed so far and
whether the null end-of-stream sentinel has been pushed. -/
structure Readable where
  pushed : List (List Nat)
  endedSentinel : Bool
  deriving DecidableEq, Repr

/-- Fresh Readable, `new Readable()`. -/
def Readable.new : Readable := ⟨[], false⟩

/-- Push of a data chunk, `stream.push(data)`. -/
def Readable.pushChunk (s : Readable) (c : List Nat) : Readable :=
  { s with pushed := s.pushed ++ [c] }

/-- Push of the null sentinel, `stream.push(null)`. -/
def Readable.pushNull (s : Readable) : Readable :=
  { s with endedSentinel := true }

/-- Custom media streaming return body (MediaReadResult in src/types.ts);
the two disposition fields are optional. -/
structure MediaReadResult where
  value : Readable
  mediaContentType : String
  mediaContentDispositionFilename : Option String
  mediaContentDispositionType : Option String
  deriving DecidableEq, Repr

/-- Embedding of formatMediaResult: builds a fresh Readable, pushes the
buffer once, pushes the null sentinel, and wraps the stream with the
mimetype; the disposition fields are left absent. -/
def formatMediaResult (data : List Nat) (mimetype : String) : MediaReadResult :=
  let stream := Readable.new
  let stream := stream.pushChunk data
  let stream := stream.pushNull
  { value := stream
    mediaContentType := mimetype
    mediaContentDispositionFilename := none
    mediaContentDispositionType := none }

/-! ### Streaming entry points (the stream module) -/

/-- Hosting response object (req.res): headers set so far and the bytes
written into its stream; a header value of `none` models setHeader with
an undefined value. -/
structure HostResponse where
  headers : List (String × Option String)
  written : List Nat
  deriving DecidableEq, Repr

/-- Embedding of res.setHeader(k, v). -/
def setHeader (res : HostResponse) (k : String) (v : Option String) : HostResponse :=
  { res with headers := res.headers ++ [(k, v)] }

/-- Piping a readable into the hosting response appends every byte the
stream still emits and exhausts the source. -/
def pipeToHost (s : ReadableState) (res : HostResponse) :
    ReadableState × HostResponse :=
  (⟨[], s.errs⟩, { res with written := res.written ++ s.remaining.flatten })

/-- Request configuration built inside streamMediaFromRemote: a GET with
responseType "stream" and no body. -/
def fetchRequestConfig (uri : String) : RequestConfig :=
  { method := STREAM_HTTP_FETCH_METHOD
    url := uri
    data := none
    contentTypeHeader := none
    responseType := some STREAM_RESPONSE_TYPE }

/-- Request configuration built inside streamMediaToRemoteService: a PUT
carrying the buffer and a Content-Type header. -/
def sendRequestConfig (uri fileType : String) (body : List Nat) : RequestConfig :=
  { method := STREAM_HTTP_SEND_METHOD
    url := uri
    data := some body
    contentTypeHeader := some fileType
    responseType := none }

/-- Embedding of streamMediaFromRemote: resolves the destination,
mapping any resolver failure to ERR_DESTINATION_RETRIEVAL, issues the
streaming GET, mapping any transport failure to ERR_FETCH_FAILED, and
returns the transport response untouched - its status is never read. -/
def streamMediaFromRemote
    (requires : String → Option ExternalServiceConfig)
    (gd : String → Except Unit (Option HttpDestination))
    (execute : DestinationInfo → RequestConfig → Except Unit HttpResponse)
    (uri externalService : String) : Except JsError HttpResponse :=
  match getDestinationInformation requires gd externalService with
  | .error _ => .error (.jsError ERR_DESTINATION_RETRIEVAL)
  | .ok destinationInfo =>
    match execute destinationInfo (fetchRequestConfig uri) with
    | .error _ => .error (.jsError ERR_FETCH_FAILED)
    | .ok response => .ok response

/-- Embedding of streamMediaToRemoteService: resolves the destination
(ERR_DESTINATION_RETRIEVAL on failure), issues the PUT
(ERR_SEND_FAILED on transport failure), then throws ERR_STREAM_REJECTED
when the status is below 200 or at least 300, and otherwise succeeds. -/
def streamMediaToRemoteService
    (requires : String → Option ExternalServiceConfig)
    (gd : String → Except Unit (Option HttpDestination))
    (execute : DestinationInfo → RequestConfig → Except Unit HttpResponse)
    (uri fileType : String) (body : List Nat)
    (externalService : String) : Except JsError Unit :=
  match getDestinationInformation requires gd externalService with
  | .error _ => .error (.jsError ERR_DESTINATION_RETRIEVAL)
  | .ok destinationInfo =>
    match execute destinationInfo (sendRequestConfig uri fileType body) with
    | .error _ => .error (.jsError ERR_SEND_FAILED)
    | .ok response =>
      if response.status < 200 ∨ 300 ≤ response.status then
        .error (.jsError ERR_STREAM_REJECTED)
      else .ok ()

/-- Embedding of streamMediaFromRemoteThroughPipe: fetches the response,
awaits processHttpPassthrough on it (which consumes the response stream;
its resolved buffer is bound to no variable in the source and dropped),
mirrors the content-type header, sets the content-disposition header
when a filename is supplied, and then pipes response.data - by now
exhausted - into the hosting response.  Returns the hosting response
and the final state of the response stream. -/
def streamMediaFromRemoteThroughPipe
    (requires : String → Option ExternalServiceConfig)
    (gd : String → Except Unit (Option HttpDestination))
    (execute : DestinationInfo → RequestConfig → Except Unit HttpResponse)
    (uri externalService : String) (res : HostResponse)
    (filename : Option String) : Except JsError (HostResponse × ReadableState) :=
  match streamMediaFromRemote requires gd execute uri externalService with
  | .error e => .error e
  | .ok response =>
    let s0 : ReadableState := ⟨response.data, response.dataErrored⟩
    let drained := processHttpPassthroughSt s0
    match drained.2 with
    | .error _ => .error .undefinedReject
    | .ok _buf =>
      let res1 := setHeader res OUTBOUND_CONTENT_TYPE
        (headerLookup response.headers INBOUND_CONTENT_TYPE)
      let res2 := match filename with
        | some f => setHeader res1 CONTENT_DISPOSITION (some ("filename=" ++ f))
        | none => res1
      let piped := pipeToHost drained.1 res2
      .ok (piped.2, piped.1)

deriving instance DecidableEq for Except

/-! ### Concrete sample values used by the witnesses -/

/-- Inline basic-auth credentials, valid. -/
def credsInline : Credentials :=
  { url := some "http://remote"
    authentication := some BASIC_AUTH
    username := some "u"
    password := some "p"
    forwardAuthToken := none
    destination := none }

/-- Valid inline service configuration. -/
def cfgInline : ExternalServiceConfig :=
  { kind := "rest", model := none, credentials := some credsInline }

/-- Inline credentials with a non-basic authentication style. -/
def credsBadAuth : Credentials :=
  { url := some "http://remote"
    authentication := some "OAuth2"
    username := none
    password := none
    forwardAuthToken := none
    destination := none }

/-- Service configuration with an unsupported authentication style. -/
def cfgBadAuth : ExternalServiceConfig :=
  { kind := "rest", model := none, credentials := some credsBadAuth }

/-- Inline basic-auth credentials with a missing url. -/
def credsNoUrl : Credentials :=
  { url := none
    authentication := some BASIC_AUTH
    username := some "u"
    password := some "p"
    forwardAuthToken := none
    destination := none }

/-- Service configuration with basic auth but no url. -/
def cfgNoUrl : ExternalServiceConfig :=
  { kind := "rest", model := none, credentials := some credsNoUrl }

/-- Credentials naming a remote destination. -/
def credsPrice : Credentials :=
  { url := none
    authentication := none
    username := none
    password := none
    forwardAuthToken := none
    destination := some "priceDest" }

/-- Service configuration delegating to the remote directory. -/
def cfgPrice : ExternalServiceConfig :=
  { kind := "rest", model := none, credentials := some credsPrice }

/-- Sample configuration map (cds.env.requires). -/
def requiresSample : String → Option ExternalServiceConfig := fun s =>
  if s == "svc" then some cfgInline
  else if s == "badauth" then some cfgBadAuth
  else if s == "nourl" then some cfgNoUrl
  else if s == "PriceAPI" then some cfgPrice
  else none

/-- Directory lookup that always throws. -/
def gdFail : String → Except Unit (Option HttpDestination) := fun _ => .error ()

/-- Directory lookup that completes but yields no destination. -/
def gdNull : String → Except Unit (Option HttpDestination) := fun _ => .ok none

/-- Successful png response whose body is the chunks [1,2] and [3]. -/
def respPng : HttpResponse :=
  { status := 200
    headers := [(INBOUND_CONTENT_TYPE, "image/png")]
    data := [[1, 2], [3]]
    dataErrored := false }

/-- Response with status 500 and a one-chunk body. -/
def resp500 : HttpResponse :=
  { status := 500, headers := [], data := [[9]], dataErrored := false }

/-- Empty response with status 404. -/
def resp404 : HttpResponse :=
  { status := 404, headers := [], data := [], dataErrored := false }

/-- Empty response with status 204. -/
def resp204 : HttpResponse :=
  { status := 204, headers := [], data := [], dataErrored := false }

/-- Response whose body stream errors after one chunk. -/
def respErrStream : HttpResponse :=
  { status := 200, headers := [], data := [[5]], dataErrored := true }

/-- Transport that returns the given response to every request. -/
def execOf (r : HttpResponse) :
    DestinationInfo → RequestConfig → Except Unit HttpResponse := fun _ _ => .ok r

/-- Transport that throws on every request. -/
def execFail : DestinationInfo → RequestConfig → Except Unit HttpResponse :=
  fun _ _ => .error ()

/-- Fresh hosting response: no headers set, no bytes written. -/
def hostEmpty : HostResponse := { headers := [], written := [] }

/-! ### Theorems about the destination resolver -/

/-- C6: for every service name absent from the configuration, resolution
fails with ConfigurationError (ERR_NO_CONFIG) and the external
destination directory is never invoked: the result is the same for every
directory function. -/
theorem claim_C6_absent_config (requires : String → Option ExternalServiceConfig)
    (gd1 gd2 : String → Except Unit (Option HttpDestination)) (s : String)
    (h : requires s = none) :
    getDestinationInformation requires gd1 s = .error (.jsError ERR_NO_CONFIG) ∧
    getDestinationInformation requires gd1 s = getDestinationInformation requires gd2 s := by
  simp [getDestinationInformation, h]

/-- Witness for C6 at the concrete sample configuration. -/
theorem claim_C6_absent_config_witness :
    getDestinationInformation requiresSample gdFail "absent" = .error (.jsError ERR_NO_CONFIG) ∧
    getDestinationInformation requiresSample gdFail "absent" = getDestinationInformation requiresSample gdNull "absent" :=
  claim_C6_absent_config requiresSample gdFail gdNull "absent" (by decide)

/-- C5: for every valid inline configuration (no remote destination,
authentication equal to the basic-auth marker BASIC_AUTH, non-empty
url), resolution returns the options literal with url, username and
password copied verbatim from the configuration and authentication set
to the basic-auth marker. -/
theorem claim_C5_inline_verbatim (requires : String → Option ExternalServiceConfig)
    (gd : String → Except Unit (Option HttpDestination)) (s : String)
    (cfg : ExternalServiceConfig) (creds : Credentials) (u : String)
    (hreq : requires s = some cfg) (hcred : cfg.credentials = some creds)
    (hdest : truthyStr creds.destination = false)
    (hauth : creds.authentication = some BASIC_AUTH)
    (hurl : creds.url = some u) (hne : u ≠ "") :
    getDestinationInformation requires gd s =
      .ok (.inlineInfo u BASIC_AUTH creds.username creds.password) := by
  simp only [getDestinationInformation, hreq, hcred, Option.some_bind, hdest, hauth, hurl]
  simp [truthyStr, hne]

/-- Witness for C5 at the concrete sample configuration. -/
theorem claim_C5_inline_verbatim_witness :
    getDestinationInformation requiresSample gdFail "svc" =
      .ok (.inlineInfo "http://remote" BASIC_AUTH (some "u") (some "p")) :=
  claim_C5_inline_verbatim requiresSample gdFail "svc" cfgInline credsInline
    "http://remote" (by decide) rfl (by decide) rfl rfl (by decide)

/-- C7: for every configuration present with no truthy remote
destination, invalid inline credentials are classified in order: a
non-basic authentication style fails with AuthenticationError
(ERR_INVALID_LOCAL_AUTH); basic authentication with a falsy url fails
with UrlError (ERR_NO_VALID_URL). -/
theorem claim_C7_inline_error_order (requires : String → Option ExternalServiceConfig)
    (gd : String → Except Unit (Option HttpDestination)) (s : String)
    (cfg : ExternalServiceConfig)
    (hreq : requires s = some cfg)
    (hdest : truthyStr (cfg.credentials.bind (fun c => c.destination)) = false) :
    (cfg.credentials.bind (fun c => c.authentication) ≠ some BASIC_AUTH →
      getDestinationInformation requires gd s = .error (.jsError ERR_INVALID_LOCAL_AUTH)) ∧
    (cfg.credentials.bind (fun c => c.authentication) = some BASIC_AUTH →
     truthyStr (cfg.credentials.bind (fun c => c.url)) = false →
      getDestinationInformation requires gd s = .error (.jsError ERR_NO_VALID_URL)) := by
  constructor
  · intro hauth
    simp only [getDestinationInformation, hreq, hdest]
    simp [hauth]
  · intro hauth hurl
    simp only [getDestinationInformation, hreq, hdest, hauth, hurl]
    simp

/-- Witness for C7 at the concrete sample configurations. -/
theorem claim_C7_inline_error_order_witness :
    getDestinationInformation requiresSample gdFail "badauth" = .error (.jsError ERR_INVALID_LOCAL_AUTH) ∧
    getDestinationInformation requiresSample gdFail "nourl" = .error (.jsError ERR_NO_VALID_URL) :=
  ⟨(claim_C7_inline_error_order requiresSample gdFail "badauth" cfgBadAuth
      (by decide) (by decide)).1 (by decide),
   (claim_C7_inline_error_order requiresSample gdFail "nourl" cfgNoUrl
      (by decide) (by decide)).2 (by decide) (by decide)⟩

/-- C10: when the remote directory lookup completes without throwing but
yields no destination, getDestinationInformation returns that absent
value as the resolved destination, with no validation. -/
theorem claim_C10_null_lookup_passthrough (requires : String → Option ExternalServiceConfig)
    (gd : String → Except Unit (Option HttpDestination)) (s : String)
    (cfg : ExternalServiceConfig) (creds : Credentials) (d : String)
    (hreq : requires s = some cfg) (hcred : cfg.credentials = some creds)
    (hdest : creds.destination = some d) (hne : d ≠ "")
    (hnull : gd d = .ok none) :
    getDestinationInformation requires gd s = .ok (.remote none) := by
  simp only [getDestinationInformation, loadRemoteDestination, hreq, hcred,
    Option.some_bind, hdest]
  simp [truthyStr, hne, hnull]

/-- Witness for C10 at the concrete sample configuration. -/
theorem claim_C10_null_lookup_passthrough_witness :
    getDestinationInformation requiresSample gdNull "PriceAPI" = .ok (.remote none) :=
  claim_C10_null_lookup_passthrough requiresSample gdNull "PriceAPI" cfgPrice
    credsPrice "priceDest" (by decide) rfl rfl (by decide) rfl

/-- C3: when a service is configured with a remote destination name,
resolution delegates to the external directory, and a failing lookup
makes getDestinationInformation reject (propagating the directory
failure), which every streaming entry point re-raises as
DestinationRetrievalError (ERR_DESTINATION_RETRIEVAL); stated at the
scenario service "PriceAPI" with destination "priceDest". -/
theorem claim_C3_remote_lookup_failure (requires : String → Option ExternalServiceConfig)
    (gd : String → Except Unit (Option HttpDestination))
    (cfg : ExternalServiceConfig) (creds : Credentials)
    (hreq : requires "PriceAPI" = some cfg) (hcred : cfg.credentials = some creds)
    (hdest : creds.destination = some "priceDest")
    (hfail : gd "priceDest" = .error ()) :
    getDestinationInformation requires gd "PriceAPI" = .error .externalFailure ∧
    ∀ (execute : DestinationInfo → RequestConfig → Except Unit HttpResponse) (uri : String),
      streamMediaFromRemote requires gd execute uri "PriceAPI" =
        .error (.jsError ERR_DESTINATION_RETRIEVAL) := by
  have h1 : getDestinationInformation requires gd "PriceAPI" = .error .externalFailure := by
    simp only [getDestinationInformation, loadRemoteDestination, hreq, hcred,
      Option.some_bind, hdest]
    simp [truthyStr, hfail]
  exact ⟨h1, fun execute uri => by simp [streamMediaFromRemote, h1]⟩

/-- Witness for C3 at the concrete sample configuration. -/
theorem claim_C3_remote_lookup_failure_witness :
    streamMediaFromRemote requiresSample gdFail (execOf resp500) "/e" "PriceAPI" =
      .error (.jsError ERR_DESTINATION_RETRIEVAL) :=
  (claim_C3_remote_lookup_failure requiresSample gdFail cfgPrice credsPrice
    (by decide) rfl rfl rfl).2 (execOf resp500) "/e"

/-! ### Theorems about the streaming entry points -/

/-- C4: streamMediaFromRemote re-raises every destination-resolution
failure as DestinationRetrievalError (ERR_DESTINATION_RETRIEVAL),
re-raises every transport failure as FetchFailedError
(ERR_FETCH_FAILED), and returns any response the transport produced as
success, whatever its HTTP status code. -/
theorem claim_C4_fetch_error_wrapping (requires : String → Option ExternalServiceConfig)
    (gd : String → Except Unit (Option HttpDestination))
    (execute : DestinationInfo → RequestConfig → Except Unit HttpResponse)
    (uri s : String) :
    ((∃ e, getDestinationInformation requires gd s = .error e) →
      streamMediaFromRemote requires gd execute uri s =
        .error (.jsError ERR_DESTINATION_RETRIEVAL)) ∧
    ∀ d, getDestinationInformation requires gd s = .ok d →
      (execute d (fetchRequestConfig uri) = .error () →
        streamMediaFromRemote requires gd execute uri s =
          .error (.jsError ERR_FETCH_FAILED)) ∧
      ∀ r, execute d (fetchRequestConfig uri) = .ok r →
        streamMediaFromRemote requires gd execute uri s = .ok r := by
  constructor
  · rintro ⟨e, he⟩
    simp [streamMediaFromRemote, he]
  · intro d hd
    constructor
    · intro hx
      simp [streamMediaFromRemote, hd, hx]
    · intro r hr
      simp [streamMediaFromRemote, hd, hr]

/-- Witness for C4: an absent service yields ERR_DESTINATION_RETRIEVAL, a
throwing transport yields ERR_FETCH_FAILED, and a status-500 response is
returned as success. -/
theorem claim_C4_fetch_error_wrapping_witness :
    streamMediaFromRemote requiresSample gdFail (execOf resp500) "/e" "absent" =
      .error (.jsError ERR_DESTINATION_RETRIEVAL) ∧
    streamMediaFromRemote requiresSample gdFail execFail "/e" "svc" =
      .error (.jsError ERR_FETCH_FAILED) ∧
    streamMediaFromRemote requiresSample gdFail (execOf resp500) "/e" "svc" = .ok resp500 :=
  ⟨(claim_C4_fetch_error_wrapping requiresSample gdFail (execOf resp500) "/e" "absent").1
      ⟨.jsError ERR_NO_CONFIG, by decide⟩,
   ((claim_C4_fetch_error_wrapping requiresSample gdFail execFail "/e" "svc").2
      (.inlineInfo "http://remote" BASIC_AUTH (some "u") (some "p")) (by decide)).1 rfl,
   ((claim_C4_fetch_error_wrapping requiresSample gdFail (execOf resp500) "/e" "svc").2
      (.inlineInfo "http://remote" BASIC_AUTH (some "u") (some "p")) (by decide)).2 resp500 rfl⟩

/-- C2: in streamMediaToRemoteService, once the destination resolved, a
throwing transport call fails with SendFailedError (ERR_SEND_FAILED); a
transport response with status outside the interval from 200 up to but
excluding 300 fails with StreamRejectedError (ERR_STREAM_REJECTED); and
a status inside that interval returns successfully. -/
theorem claim_C2_send_status_handling (requires : String → Option ExternalServiceConfig)
    (gd : String → Except Unit (Option HttpDestination))
    (execute : DestinationInfo → RequestConfig → Except Unit HttpResponse)
    (uri fileType : String) (body : List Nat) (s : String) (d : DestinationInfo)
    (hd : getDestinationInformation requires gd s = .ok d) :
    (execute d (sendRequestConfig uri fileType body) = .error () →
      streamMediaToRemoteService requires gd execute uri fileType body s =
        .error (.jsError ERR_SEND_FAILED)) ∧
    ∀ r, execute d (sendRequestConfig uri fileType body) = .ok r →
      ((r.status < 200 ∨ 300 ≤ r.status) →
        streamMediaToRemoteService requires gd execute uri fileType body s =
          .error (.jsError ERR_STREAM_REJECTED)) ∧
      (200 ≤ r.status → r.status < 300 →
        streamMediaToRemoteService requires gd execute uri fileType body s = .ok ()) := by
  constructor
  · intro hx
    simp [streamMediaToRemoteService, hd, hx]
  · intro r hr
    constructor
    · intro hs
      simp only [streamMediaToRemoteService, hd, hr]
      rw [if_pos hs]
    · intro h1 h2
      simp only [streamMediaToRemoteService, hd, hr]
      rw [if_neg (by omega)]

/-- Witness for C2: a throwing transport gives ERR_SEND_FAILED, a 404
response gives ERR_STREAM_REJECTED, and a 204 response succeeds. -/
theorem claim_C2_send_status_handling_witness :
    streamMediaToRemoteService requiresSample gdFail execFail "/e" ".png" [7] "svc" =
      .error (.jsError ERR_SEND_FAILED) ∧
    streamMediaToRemoteService requiresSample gdFail (execOf resp404) "/e" ".png" [7] "svc" =
      .error (.jsError ERR_STREAM_REJECTED) ∧
    streamMediaToRemoteService requiresSample gdFail (execOf resp204) "/e" ".png" [7] "svc" = .ok () :=
  ⟨(claim_C2_send_status_handling requiresSample gdFail execFail "/e" ".png" [7] "svc"
      (.inlineInfo "http://remote" BASIC_AUTH (some "u") (some "p")) (by decide)).1 rfl,
   ((claim_C2_send_status_handling requiresSample gdFail (execOf resp404) "/e" ".png" [7] "svc"
      (.inlineInfo "http://remote" BASIC_AUTH (some "u") (some "p")) (by decide)).2
      resp404 rfl).1 (by decide),
   ((claim_C2_send_status_handling requiresSample gdFail (execOf resp204) "/e" ".png" [7] "svc"
      (.inlineInfo "http://remote" BASIC_AUTH (some "u") (some "p")) (by decide)).2
      resp204 rfl).2 (by decide) (by decide)⟩

/-! ### Theorems about the stream accumulator and adapters -/

/-- Folding the drain handlers over the data events appends every chunk
to the accumulator, in order. -/
theorem foldl_drainStep_chunks (chunks cs : List (List Nat)) :
    List.foldl drainStep (DrainState.pending cs) (chunks.map StreamEvent.chunk) =
      .pending (cs ++ chunks) := by
  induction chunks generalizing cs with
  | nil => simp
  | cons c rest ih =>
    simp only [List.map_cons, List.foldl_cons, drainStep, ih]
    simp

/-- Closed form of processHttpPassthrough: the concatenation of the
chunks on a clean stream, the empty rejection on an erroring stream. -/
theorem processHttpPassthrough_eq (r : HttpResponse) :
    processHttpPassthrough r =
      if r.dataErrored then .error () else .ok r.data.flatten := by
  simp only [processHttpPassthrough, processHttpPassthroughSt, pipeOut, drainEvents,
    streamEvents, List.foldl_append, foldl_drainStep_chunks, List.nil_append]
  cases r.dataErrored <;> simp [drainStep]

/-- C8: for every response whose stream emits the bytes bs partitioned
into arbitrarily many chunks, processHttpPassthrough resolves with the
byte-for-byte concatenation bs, whatever the chunk boundaries; on a
stream error it rejects (with the empty rejection). -/
theorem claim_C8_drain_concatenation (r : HttpResponse) (bs : List Nat)
    (h : r.data.flatten = bs) :
    (r.dataErrored = false → processHttpPassthrough r = .ok bs) ∧
    (r.dataErrored = true → processHttpPassthrough r = .error ()) := by
  constructor <;> intro he <;> simp [processHttpPassthrough_eq, he, h]

/-- Witness for C8: the two-chunk png response drains to [1, 2, 3] and
the erroring stream rejects. -/
theorem claim_C8_drain_concatenation_witness :
    processHttpPassthrough respPng = .ok [1, 2, 3] ∧
    processHttpPassthrough respErrStream = .error () :=
  ⟨(claim_C8_drain_concatenation respPng [1, 2, 3] (by decide)).1 rfl,
   (claim_C8_drain_concatenation respErrStream [5] (by decide)).2 rfl⟩

/-- C9: formatMediaResult returns an envelope whose content-type field
equals the given mimetype and whose stream has the buffer pushed exactly
once followed by the end-of-stream sentinel. -/
theorem claim_C9_format_media_result (data : List Nat) (mimetype : String) :
    (formatMediaResult data mimetype).mediaContentType = mimetype ∧
    (formatMediaResult data mimetype).value.pushed = [data] ∧
    (formatMediaResult data mimetype).value.endedSentinel = true := by
  simp [formatMediaResult, Readable.new, Readable.pushChunk, Readable.pushNull]

/-- C1: evaluation of streamMediaFromRemoteThroughPipe at a concrete
fetched response whose drained buffer is [1, 2, 3]: the call succeeds,
sets the two headers, but appends no byte at all to the hosting
response stream, because the source pipes the already-exhausted
response.data instead of the buffer resolved by processHttpPassthrough
(whose result the source drops).  The written bytes are therefore not
the drained buffer. -/
theorem claim_C1_buffered_pipe_writes_no_bytes :
    streamMediaFromRemoteThroughPipe requiresSample gdFail (execOf respPng)
        "/e" "svc" hostEmpty (some "a.png") =
      .ok ({ headers := [(OUTBOUND_CONTENT_TYPE, some "image/png"),
                         (CONTENT_DISPOSITION, some "filename=a.png")]
             written := [] },
           { remaining := [], errs := false }) ∧
    processHttpPassthrough respPng = .ok [1, 2, 3] := by
  constructor <;> decide
